import Mathlib

/-!
Verification of the resilience / resource-governance layer of the open-swe
repository: the circuit breaker, model-config resolver and invocation
orchestrator of apps/open-swe/src/utils/llms/model-manager.ts together with
the fallback runner of apps/open-swe/src/utils (FallbackRunnable.invoke and
sanitizeHistory), and the history compactor described in the specification.
Every definition is a shallow embedding of the corresponding TypeScript
source; time is passed explicitly (the source reads Date.now()), the Redis
key-value store is modelled as a total function from keys to breaker states
(an absent key is equivalent to the default CLOSED state, exactly as in
getCircuitState).
-/

namespace OpenSWE

/-! ## Circuit breaker data model (model-manager.ts, CircuitState /
CircuitBreakerState / ModelManagerConfig) -/

/-- CircuitState enum of model-manager.ts. -/
inductive CircuitState
  | CLOSED
  | OPEN
deriving DecidableEq, Repr

/-- CircuitBreakerState of model-manager.ts: the per-model-key health
record. The optional openedAt field is an Option. -/
structure CircuitBreakerState where
  state : CircuitState
  failureCount : Nat
  lastFailureTime : Int
  openedAt : Option Int
deriving DecidableEq, Repr

/-- The default state produced by getCircuitState when the store holds no
entry for a key. -/
def defaultCircuitState : CircuitBreakerState :=
  { state := .CLOSED, failureCount := 0, lastFailureTime := 0, openedAt := none }

/-- ModelManagerConfig of model-manager.ts (the fallbackOrder list is not
consulted by any live code path and is omitted). -/
structure ModelManagerConfig where
  circuitBreakerFailureThreshold : Nat
  circuitBreakerTimeoutMs : Int
deriving DecidableEq, Repr

/-- DEFAULT_MODEL_MANAGER_CONFIG of model-manager.ts. -/
def DEFAULT_MODEL_MANAGER_CONFIG : ModelManagerConfig :=
  { circuitBreakerFailureThreshold := 2, circuitBreakerTimeoutMs := 180000 }

/-! ## Circuit breaker operations (model-manager.ts, recordFailure /
recordSuccess / isCircuitClosed).  Each operation touches the state of a
single model key; now is the value Date.now() returns during the call. -/

/-- recordFailure of model-manager.ts, acting on one key state: stamp the
failure time, increment the count, and open the circuit at the threshold. -/
def recordFailure (cfg : ModelManagerConfig) (now : Int)
    (s : CircuitBreakerState) : CircuitBreakerState :=
  let s1 := { s with lastFailureTime := now, failureCount := s.failureCount + 1 }
  if s1.failureCount ≥ cfg.circuitBreakerFailureThreshold then
    { s1 with state := .OPEN, openedAt := some now }
  else
    s1

/-- recordSuccess of model-manager.ts: force CLOSED, reset the count and
clear openedAt. -/
def recordSuccess (s : CircuitBreakerState) : CircuitBreakerState :=
  { s with state := .CLOSED, failureCount := 0, openedAt := none }

/-- isCircuitClosed of model-manager.ts: answer whether the key may be
attempted, lazily recovering an OPEN circuit whose timeout has elapsed.
Returns the answer together with the (possibly recovered) state that is
saved back to the store. -/
def isCircuitClosed (cfg : ModelManagerConfig) (now : Int)
    (s : CircuitBreakerState) : Bool × CircuitBreakerState :=
  if s.state = .CLOSED then
    (true, s)
  else
    match s.openedAt with
    | some t =>
      if now - t ≥ cfg.circuitBreakerTimeoutMs then
        (true, { s with state := .CLOSED, failureCount := 0, openedAt := none })
      else
        (false, s)
    | none => (false, s)

/-- The three mutating operations of the breaker, as data, so that an
arbitrary operation sequence can be described. -/
inductive BreakerOp
  | failure (now : Int)
  | success
  | healthCheck (now : Int)
deriving DecidableEq, Repr

/-- Apply one breaker operation to one key state (the health check keeps
only the state written back by isCircuitClosed). -/
def applyBreakerOp (cfg : ModelManagerConfig) (op : BreakerOp)
    (s : CircuitBreakerState) : CircuitBreakerState :=
  match op with
  | .failure now => recordFailure cfg now s
  | .success => recordSuccess s
  | .healthCheck now => (isCircuitClosed cfg now s).2

/-- Apply a sequence of breaker operations, oldest first. -/
def applyBreakerOps (cfg : ModelManagerConfig) (ops : List BreakerOp)
    (s : CircuitBreakerState) : CircuitBreakerState :=
  ops.foldl (fun acc op => applyBreakerOp cfg op acc) s

/-- The spec invariant on a breaker state: OPEN has openedAt set, CLOSED has
it absent. -/
def breakerInvariant (s : CircuitBreakerState) : Prop :=
  (s.state = .OPEN → s.openedAt.isSome = true) ∧
  (s.state = .CLOSED → s.openedAt = none)

instance (s : CircuitBreakerState) : Decidable (breakerInvariant s) := by
  unfold breakerInvariant
  infer_instance

/-! ## Claims C3, C4, C9 -/

/-- Claim C3: starting from the default CLOSED state with failureCount 0,
under the default configuration (threshold 2), the first recordFailure
leaves the circuit CLOSED with no openedAt, and the second consecutive
recordFailure opens it with openedAt equal to the time of that second
failure: the transition happens exactly at the threshold and not before. -/
theorem circuit_opens_exactly_at_second_failure (t1 t2 : Int) :
    (recordFailure DEFAULT_MODEL_MANAGER_CONFIG t1 defaultCircuitState).state
        = .CLOSED ∧
    (recordFailure DEFAULT_MODEL_MANAGER_CONFIG t1 defaultCircuitState).openedAt
        = none ∧
    (recordFailure DEFAULT_MODEL_MANAGER_CONFIG t1 defaultCircuitState).failureCount
        = 1 ∧
    (recordFailure DEFAULT_MODEL_MANAGER_CONFIG t2
        (recordFailure DEFAULT_MODEL_MANAGER_CONFIG t1 defaultCircuitState)).state
        = .OPEN ∧
    (recordFailure DEFAULT_MODEL_MANAGER_CONFIG t2
        (recordFailure DEFAULT_MODEL_MANAGER_CONFIG t1 defaultCircuitState)).openedAt
        = some t2 ∧
    (recordFailure DEFAULT_MODEL_MANAGER_CONFIG t2
        (recordFailure DEFAULT_MODEL_MANAGER_CONFIG t1 defaultCircuitState)).failureCount
        = 2 := by
  simp [recordFailure, defaultCircuitState, DEFAULT_MODEL_MANAGER_CONFIG]

/-- Claim C4: for an OPEN circuit with openedAt set, isCircuitClosed answers
false and leaves the state untouched while the elapsed time is below the
timeout, and once the elapsed time reaches the timeout it answers true and
writes back a CLOSED state with failureCount 0 and openedAt cleared;
recordSuccess in any state forces CLOSED, resets the count and clears
openedAt. -/
theorem open_circuit_recovers_after_timeout
    (cfg : ModelManagerConfig) (s : CircuitBreakerState) (t now : Int)
    (hOpen : s.state = .OPEN) (hAt : s.openedAt = some t) :
    (now - t < cfg.circuitBreakerTimeoutMs →
      isCircuitClosed cfg now s = (false, s)) ∧
    (now - t ≥ cfg.circuitBreakerTimeoutMs →
      isCircuitClosed cfg now s =
        (true, { s with state := .CLOSED, failureCount := 0, openedAt := none })) ∧
    (∀ s' : CircuitBreakerState,
      recordSuccess s' =
        { s' with state := .CLOSED, failureCount := 0, openedAt := none }) := by
  refine ⟨?_, ?_, fun s' => rfl⟩
  · intro hlt
    simp [isCircuitClosed, hOpen, hAt, not_le.mpr hlt]
  · intro hge
    simp [isCircuitClosed, hOpen, hAt, hge]

/-- Witness for C4 at concrete inputs: an OPEN state opened at time 0 is
unavailable at time 179999 and recovered at time 180000. -/
theorem open_circuit_recovers_after_timeout_witness :
    (isCircuitClosed DEFAULT_MODEL_MANAGER_CONFIG 179999
        { state := .OPEN, failureCount := 2, lastFailureTime := 0, openedAt := some 0 }
      = (false,
        { state := .OPEN, failureCount := 2, lastFailureTime := 0, openedAt := some 0 })) ∧
    (isCircuitClosed DEFAULT_MODEL_MANAGER_CONFIG 180000
        { state := .OPEN, failureCount := 2, lastFailureTime := 0, openedAt := some 0 }
      = (true,
        { state := .CLOSED, failureCount := 0, lastFailureTime := 0, openedAt := none })) := by
  have h1 := open_circuit_recovers_after_timeout DEFAULT_MODEL_MANAGER_CONFIG
    { state := .OPEN, failureCount := 2, lastFailureTime := 0, openedAt := some 0 }
    0 179999 rfl rfl
  have h2 := open_circuit_recovers_after_timeout DEFAULT_MODEL_MANAGER_CONFIG
    { state := .OPEN, failureCount := 2, lastFailureTime := 0, openedAt := some 0 }
    0 180000 rfl rfl
  exact ⟨h1.1 (by decide), h2.2.1 (by decide)⟩

/-- Claim C9: the state invariant (OPEN implies openedAt set, CLOSED implies
openedAt absent) holds for the lazily created default state and is preserved
by recordFailure, recordSuccess and the lazy recovery inside isCircuitClosed,
for every configuration and every operation. -/
theorem breaker_invariant_preserved :
    breakerInvariant defaultCircuitState ∧
    (∀ (cfg : ModelManagerConfig) (op : BreakerOp) (s : CircuitBreakerState),
      breakerInvariant s → breakerInvariant (applyBreakerOp cfg op s)) := by
  constructor
  · exact ⟨fun h => by simp [defaultCircuitState] at h, fun _ => rfl⟩
  · intro cfg op s hs
    obtain ⟨hOpen, hClosed⟩ := hs
    cases op with
    | failure now =>
      unfold applyBreakerOp recordFailure
      dsimp only
      split
      · exact ⟨fun _ => rfl, fun h => by simp at h⟩
      · exact ⟨fun h => hOpen h, fun h => hClosed h⟩
    | success =>
      exact ⟨fun h => by simp [applyBreakerOp, recordSuccess] at h, fun _ => rfl⟩
    | healthCheck now =>
      unfold applyBreakerOp isCircuitClosed
      dsimp only
      split
      · exact ⟨hOpen, hClosed⟩
      · split
        · split
          · exact ⟨fun h => by simp at h, fun _ => rfl⟩
          · exact ⟨hOpen, hClosed⟩
        · exact ⟨hOpen, hClosed⟩

/-- Witness for C9: the invariant holds for the default state and is
preserved across a concrete failure-success-failure-failure-check sequence. -/
theorem breaker_invariant_preserved_witness :
    breakerInvariant defaultCircuitState ∧
    breakerInvariant
      (applyBreakerOp DEFAULT_MODEL_MANAGER_CONFIG (.failure 5)
        (applyBreakerOp DEFAULT_MODEL_MANAGER_CONFIG (.failure 3)
          defaultCircuitState)) := by
  refine ⟨breaker_invariant_preserved.1, ?_⟩
  exact breaker_invariant_preserved.2 DEFAULT_MODEL_MANAGER_CONFIG (.failure 5) _
    (breaker_invariant_preserved.2 DEFAULT_MODEL_MANAGER_CONFIG (.failure 3) _
      breaker_invariant_preserved.1)

/-! ## String containment (JS String.prototype.includes, used by the error
classifier, the haiku token cap and the bedrock rewrite guard) -/

/-- Whether pat occurs as a contiguous sublist of the second argument. -/
def containsSub (pat : List Char) : List Char → Bool
  | [] => pat.isEmpty
  | c :: t => pat.isPrefixOf (c :: t) || containsSub pat t

/-- JS s.includes(pat). -/
def strContains (s pat : String) : Bool := containsSub pat.data s.data

/-! ## Model config resolver (model-manager.ts: getModelConfigs,
getBaseConfigForTask, getDefaultModelForTask, getModelFromEnv,
getDefaultModelForProvider).  The environment-variable table and the
hardcoded TASK_TO_CONFIG_DEFAULTS_MAP (declared in packages/shared, outside
the provided sources) are passed in as explicit tables; providers are the
strings the source compares against. -/

/-- LLMTask enum (packages/shared llm-task.ts). -/
inductive LLMTask
  | PLANNER
  | PROGRAMMER
  | REVIEWER
  | ROUTER
  | SUMMARIZER
deriving DecidableEq, Repr

/-- task.toUpperCase() as used to build env var names. -/
def LLMTask.upperName : LLMTask → String
  | .PLANNER => "PLANNER"
  | .PROGRAMMER => "PROGRAMMER"
  | .REVIEWER => "REVIEWER"
  | .ROUTER => "ROUTER"
  | .SUMMARIZER => "SUMMARIZER"

/-- The process environment, as a table. -/
def EnvTable := String → Option String

/-- The configurable part of GraphConfig that the resolver reads. -/
structure GraphConfigurable where
  modelProvider : Option String
  taskModelName : LLMTask → Option String
  taskTemperature : LLMTask → Option Int
  maxTokens : Option Nat

/-- ModelLoadConfig of model-manager.ts.  The gpt-5 branch of
getBaseConfigForTask attaches a max_completion_tokens property instead of
maxTokens; it is carried here as an extra optional field. -/
structure ModelLoadConfig where
  provider : String
  modelName : String
  temperature : Option Int
  maxTokens : Option Nat
  maxCompletionTokens : Option Nat
  thinkingModel : Option Bool
  thinkingBudgetTokens : Option Nat
deriving DecidableEq, Repr

/-- THINKING_BUDGET_TOKENS constant of model-manager.ts. -/
def THINKING_BUDGET_TOKENS : Nat := 5000

/-- getDefaultModelForTask: env var DEFAULT_(TASK)_MODEL, else the hardcoded
per-task default table. -/
def getDefaultModelForTask (env : EnvTable) (defaults : LLMTask → String)
    (task : LLMTask) : String :=
  (env ("DEFAULT_" ++ task.upperName ++ "_MODEL")).getD (defaults task)

/-- The providerMap of getModelFromEnv followed by the generic
uppercase-and-replace fallback. -/
def providerEnvName (provider : String) : String :=
  if provider = "anthropic" then "ANTHROPIC"
  else if provider = "openai" then "OPENAI"
  else if provider = "google-genai" then "GOOGLE_GENAI"
  else (provider.toUpper).replace "-" "_"

/-- getModelFromEnv: env var FALLBACK_(PROVIDER)_(TASK)_MODEL, else the
supplied default. -/
def getModelFromEnv (env : EnvTable) (provider : String) (task : LLMTask)
    (defaultValue : String) : String :=
  (env ("FALLBACK_" ++ providerEnvName provider ++ "_" ++ task.upperName ++ "_MODEL")).getD
    defaultValue

/-- The hardcodedDefaults table inside getDefaultModelForProvider. -/
def hardcodedProviderDefaults (provider : String) (task : LLMTask) : Option String :=
  if provider = "anthropic" then
    some (match task with
      | .ROUTER => "claude-3-5-haiku-20241022"
      | _ => "claude-sonnet-4-5-20250929")
  else if provider = "google-genai" then
    some (match task with
      | .REVIEWER => "gemini-2.5-flash"
      | .ROUTER => "gemini-2.5-flash"
      | _ => "gemini-2.5-pro")
  else if provider = "bedrock" then
    some "anthropic.claude-3-5-haiku-20241022-v1:0"
  else if provider = "openai" then
    some (match task with
      | .ROUTER => "gpt-5-nano"
      | .SUMMARIZER => "gpt-5-mini"
      | _ => "gpt-5-codex")
  else none

/-- getDefaultModelForProvider: the hardcoded default for the provider and
task, overridable through FALLBACK_... env vars. -/
def getDefaultModelForProvider (env : EnvTable) (provider : String)
    (task : LLMTask) : Option (String × String) :=
  (hardcodedProviderDefaults provider task).map
    (fun hv => (provider, getModelFromEnv env provider task hv))

/-- The bedrock oldToNewMappings table of getBaseConfigForTask. -/
def bedrockOldToNew (s : String) : Option String :=
  if s = "bedrock:anthropic.claude-haiku-4-5-20251001-v1:0" ∨
     s = "bedrock:anthropic.claude-sonnet-4-5-20250929-v1:0" ∨
     s = "bedrock:anthropic.claude-opus-4-5-20251101-v1:0" ∨
     s = "bedrock:us.anthropic.claude-haiku-4-5-20251001-v1:0" ∨
     s = "bedrock:us.anthropic.claude-sonnet-4-5-20250929-v1:0" ∨
     s = "bedrock:us.anthropic.claude-opus-4-5-20251101-v1:0" then
    some "bedrock:anthropic.claude-3-5-haiku-20241022-v1:0"
  else none

/-- getBaseConfigForTask of model-manager.ts: explicit per-task override,
else selected-provider default, else DEFAULT_(TASK)_MODEL env var, else the
hardcoded default; then the bedrock rewrite, the provider:model[:variant]
split, extended-thinking stripping, openai o-model detection, and the
gpt-5/ordinary parameter shaping. -/
def getBaseConfigForTask (env : EnvTable) (defaults : LLMTask → String)
    (gcfg : GraphConfigurable) (task : LLMTask) : ModelLoadConfig :=
  let defaultModelName := getDefaultModelForTask env defaults task
  let defaultModelName :=
    match gcfg.modelProvider, gcfg.taskModelName task with
    | some p, none =>
      match getDefaultModelForProvider env p task with
      | some pm => pm.1 ++ ":" ++ pm.2
      | none => defaultModelName
    | _, _ => defaultModelName
  let modelStr := (gcfg.taskModelName task).getD defaultModelName
  let temperature := (gcfg.taskTemperature task).getD 0
  let modelStr :=
    if strContains modelStr "bedrock:" then (bedrockOldToNew modelStr).getD modelStr
    else modelStr
  let parts := modelStr.splitOn ":"
  let modelProvider := parts.headD ""
  let nameParts := parts.tail
  let thinkingStripped :=
    match nameParts with
    | "extended-thinking" :: r => (true, r)
    | r => (false, r)
  let modelName := String.intercalate ":" thinkingStripped.2
  let thinkingModel :=
    thinkingStripped.1 || (modelProvider == "openai" && modelName.startsWith "o")
  if strContains modelName "gpt-5" then
    { provider := modelProvider, modelName := modelName,
      temperature := some 1, maxTokens := none,
      maxCompletionTokens := some (gcfg.maxTokens.getD 10000),
      thinkingModel := some thinkingModel,
      thinkingBudgetTokens := some THINKING_BUDGET_TOKENS }
  else
    { provider := modelProvider, modelName := modelName,
      temperature := some temperature,
      maxTokens := some (gcfg.maxTokens.getD 10000),
      maxCompletionTokens := none,
      thinkingModel := some thinkingModel,
      thinkingBudgetTokens := some THINKING_BUDGET_TOKENS }

/-- getModelConfigs of model-manager.ts: the base configuration pushed once
as the primary and twice more as identical retry entries; the
alternate-provider fallback block is commented out in the source. -/
def getModelConfigs (env : EnvTable) (defaults : LLMTask → String)
    (gcfg : GraphConfigurable) (task : LLMTask) : List ModelLoadConfig :=
  let baseConfig := getBaseConfigForTask env defaults gcfg task
  [baseConfig, baseConfig, baseConfig]

/-! ## Claims C5 and C8 -/

/-- Claim C5: for every task and configuration the resolver returns a
non-empty list whose first element is the base candidate, consisting of
exactly three entries that are all equal to that base candidate; no
alternate-provider fallback candidate appears. -/
theorem resolver_returns_three_copies_of_base (env : EnvTable)
    (defaults : LLMTask → String) (gcfg : GraphConfigurable) (task : LLMTask) :
    getModelConfigs env defaults gcfg task ≠ [] ∧
    (getModelConfigs env defaults gcfg task).head? =
      some (getBaseConfigForTask env defaults gcfg task) ∧
    (getModelConfigs env defaults gcfg task).length = 3 ∧
    ∀ c ∈ getModelConfigs env defaults gcfg task,
      c = getBaseConfigForTask env defaults gcfg task := by
  refine ⟨by simp [getModelConfigs], rfl, rfl, ?_⟩
  intro c hc
  simp [getModelConfigs] at hc
  tauto

/-- Witness for C5 at concrete inputs: the second entry of the resolved
list for the ROUTER task equals the base candidate, and the list has three
entries. -/
theorem resolver_returns_three_copies_of_base_witness :
    ((getModelConfigs (fun _ => none)
        (fun _ => "anthropic:claude-sonnet-4-5-20250929")
        { modelProvider := none, taskModelName := fun _ => none,
          taskTemperature := fun _ => none, maxTokens := none } .ROUTER).getD 1
      { provider := "", modelName := "", temperature := none, maxTokens := none,
        maxCompletionTokens := none, thinkingModel := none,
        thinkingBudgetTokens := none })
      = getBaseConfigForTask (fun _ => none)
          (fun _ => "anthropic:claude-sonnet-4-5-20250929")
          { modelProvider := none, taskModelName := fun _ => none,
            taskTemperature := fun _ => none, maxTokens := none } .ROUTER ∧
    (getModelConfigs (fun _ => none)
        (fun _ => "anthropic:claude-sonnet-4-5-20250929")
        { modelProvider := none, taskModelName := fun _ => none,
          taskTemperature := fun _ => none, maxTokens := none } .ROUTER).length
      = 3 :=
  ⟨(resolver_returns_three_copies_of_base (fun _ => none)
      (fun _ => "anthropic:claude-sonnet-4-5-20250929")
      { modelProvider := none, taskModelName := fun _ => none,
        taskTemperature := fun _ => none, maxTokens := none } .ROUTER).2.2.2 _
    (by simp [getModelConfigs]),
   (resolver_returns_three_copies_of_base (fun _ => none)
      (fun _ => "anthropic:claude-sonnet-4-5-20250929")
      { modelProvider := none, taskModelName := fun _ => none,
        taskTemperature := fun _ => none, maxTokens := none } .ROUTER).2.2.1⟩

/-- Claim C8: resolution is deterministic, i.e. a pure function of the
GraphConfig configurable values, the environment table and the default
table: two runs on identical inputs return the same ordered candidate
list. -/
theorem resolve_deterministic (env1 env2 : EnvTable)
    (defaults1 defaults2 : LLMTask → String)
    (g1 g2 : GraphConfigurable) (t1 t2 : LLMTask)
    (henv : env1 = env2) (hdef : defaults1 = defaults2)
    (hg : g1 = g2) (ht : t1 = t2) :
    getModelConfigs env1 defaults1 g1 t1 = getModelConfigs env2 defaults2 g2 t2 := by
  subst henv hdef hg ht
  rfl

/-- Witness for C8 at concrete inputs: two runs on an empty environment and
a default table agree. -/
theorem resolve_deterministic_witness :
    getModelConfigs (fun _ => none) (fun _ => "anthropic:claude-sonnet-4-5-20250929")
        { modelProvider := none, taskModelName := fun _ => none,
          taskTemperature := fun _ => none, maxTokens := none } .PLANNER
      = getModelConfigs (fun _ => none) (fun _ => "anthropic:claude-sonnet-4-5-20250929")
        { modelProvider := none, taskModelName := fun _ => none,
          taskTemperature := fun _ => none, maxTokens := none } .PLANNER :=
  resolve_deterministic _ _ _ _ _ _ _ _ rfl rfl rfl rfl

/-! ## Token parameter shaping of initializeModel (model-manager.ts).
initializeModel computes finalMaxTokens = maxTokens ?? 10000, capped at 8192
for claude-3-5-haiku models, corrects one invalid model id, and then places
either maxTokens, max_completion_tokens, or the thinking budget in the
provider options. -/

/-- The HOTFIX model-id correction of initializeModel. -/
def correctedModelName (modelName : String) : String :=
  if modelName = "claude-sonnet-4-5-20251101" then "claude-sonnet-4-5-20250929"
  else modelName

/-- finalMaxTokens of initializeModel: the requested maxTokens (default
10000), capped at 8192 when the model name contains claude-3-5-haiku. -/
def finalMaxTokens (c : ModelLoadConfig) : Nat :=
  let f := c.maxTokens.getD 10000
  if strContains c.modelName "claude-3-5-haiku" then
    (if f > 8192 then 8192 else f)
  else f

/-- The token-limit fields that initializeModel places in the provider
options. -/
structure TokenParams where
  maxTokens : Option Nat
  maxCompletionTokens : Option Nat
deriving DecidableEq, Repr

/-- The token-limit part of the modelOptions object built by
initializeModel: the anthropic thinking branch uses four times the thinking
budget, the gpt-5 branch uses max_completion_tokens, and every other branch
uses finalMaxTokens. -/
def modelOptionsTokenParams (c : ModelLoadConfig) : TokenParams :=
  let thinkingMaxTokens :=
    match c.thinkingBudgetTokens with
    | some b => if b = 0 then none else some (b * 4)
    | none => none
  if c.thinkingModel.getD false && c.provider == "anthropic" then
    { maxTokens := thinkingMaxTokens, maxCompletionTokens := none }
  else if strContains (correctedModelName c.modelName) "gpt-5" then
    { maxTokens := none, maxCompletionTokens := some (finalMaxTokens c) }
  else
    { maxTokens := some (finalMaxTokens c), maxCompletionTokens := none }

/-- The single effective maximum-output-token value passed to the provider
(the two fields are never both set). -/
def effectiveMaxOutputTokens (c : ModelLoadConfig) : Option Nat :=
  match (modelOptionsTokenParams c).maxTokens with
  | some n => some n
  | none => (modelOptionsTokenParams c).maxCompletionTokens

/-! ## Claim C10 -/

/-- Counterexample to claim C10 as stated: an anthropic thinking-enabled
call whose model name contains claude-3-5-haiku receives four times the
thinking budget (20000 tokens) as its effective maximum, not
min(10000, 8192) = 8192. -/
theorem haiku_cap_fails_for_thinking_call :
    effectiveMaxOutputTokens
      { provider := "anthropic", modelName := "claude-3-5-haiku-20241022",
        temperature := some 0, maxTokens := none, maxCompletionTokens := none,
        thinkingModel := some true, thinkingBudgetTokens := some 5000 }
      = some 20000 ∧
    some 20000 ≠ some (min 10000 8192) := by
  constructor
  · rfl
  · decide

/-- Helper: the model-id correction cannot introduce the gpt-5 marker. -/
theorem correctedModelName_gpt5 (n : String)
    (h : strContains n "gpt-5" = false) :
    strContains (correctedModelName n) "gpt-5" = false := by
  unfold correctedModelName
  split
  · decide
  · exact h

/-- Claim C10 (amended): for every call that is not an anthropic
thinking-enabled call, a model name containing claude-3-5-haiku receives
min(requested maxTokens with default 10000, 8192) as its effective maximum
output tokens, and every other non-gpt-5 model name passes the requested
value (default 10000) through unchanged. -/
theorem haiku_cap_for_non_thinking_calls (c : ModelLoadConfig)
    (hnt : (c.thinkingModel.getD false && c.provider == "anthropic") = false) :
    (strContains c.modelName "claude-3-5-haiku" = true →
      effectiveMaxOutputTokens c = some (min (c.maxTokens.getD 10000) 8192)) ∧
    (strContains c.modelName "claude-3-5-haiku" = false →
      strContains c.modelName "gpt-5" = false →
      effectiveMaxOutputTokens c = some (c.maxTokens.getD 10000)) := by
  have hfin : ∀ b : Nat, (if b > 8192 then 8192 else b) = min b 8192 := by
    intro b
    rcases Nat.lt_or_ge 8192 b with hb | hb
    · simp [hb, Nat.min_eq_right (Nat.le_of_lt hb)]
    · simp [Nat.not_lt.mpr hb, Nat.min_eq_left hb]
  constructor
  · intro hhaiku
    unfold effectiveMaxOutputTokens modelOptionsTokenParams
    simp only [hnt, Bool.false_eq_true, if_false]
    by_cases hg : strContains (correctedModelName c.modelName) "gpt-5" = true
    · simp [hg, finalMaxTokens, hhaiku, hfin]
    · simp [eq_false_of_ne_true hg, finalMaxTokens, hhaiku, hfin]
  · intro hhaiku hgpt
    have hg := correctedModelName_gpt5 c.modelName hgpt
    unfold effectiveMaxOutputTokens modelOptionsTokenParams
    simp [hnt, hg, finalMaxTokens, hhaiku]

/-- Witness for the amended C10: a plain claude-3-5-haiku call with the
default request is capped at 8192, and a plain sonnet call passes 10000
through. -/
theorem haiku_cap_for_non_thinking_calls_witness :
    effectiveMaxOutputTokens
      { provider := "anthropic", modelName := "claude-3-5-haiku-20241022",
        temperature := some 0, maxTokens := none, maxCompletionTokens := none,
        thinkingModel := some false, thinkingBudgetTokens := some 5000 }
      = some (min 10000 8192) ∧
    effectiveMaxOutputTokens
      { provider := "google-genai", modelName := "gemini-2.5-pro",
        temperature := some 0, maxTokens := some 10000, maxCompletionTokens := none,
        thinkingModel := some false, thinkingBudgetTokens := some 5000 }
      = some 10000 := by
  constructor
  · exact (haiku_cap_for_non_thinking_calls _ (by decide)).1 (by decide)
  · exact (haiku_cap_for_non_thinking_calls _ (by decide)).2 (by decide) (by decide)

/-! ## Invocation orchestrator (FallbackRunnable.invoke, current version).
Candidates are tried in resolver order; an unavailable circuit skips the
candidate without an attempt; a thrown error is classified by substring
matching; authentication errors abort the loop with a terminal error;
recoverable (non-configuration) errors record a breaker failure and
continue while candidates remain, otherwise the error is rethrown; if the
loop ends with no candidate left an exhaustion error carrying the last
underlying error message is raised.  The provider behaviour is supplied as
a function from the number of attempts already made to the outcome of that
attempt, and the shared breaker store is a total function from model keys
to states. -/

/-- The outcome of one provider call: the returned message or the message
of the thrown error. -/
inductive AttemptOutcome
  | success (message : String)
  | failure (errorMessage : String)
deriving DecidableEq, Repr

/-- The observable result of FallbackRunnable.invoke. -/
inductive InvokeResult
  | ok (message : String)
  | authError (message : String)
  | thrown (errorMessage : String)
  | exhausted (lastErrorMessage : Option String)
deriving DecidableEq, Repr

/-- The authentication-error classifier of FallbackRunnable.invoke. -/
def isAuthError (m : String) : Bool :=
  strContains m "401" || strContains m "Incorrect API key" ||
  strContains m "API key" || strContains m "authentication" ||
  strContains m "Invalid API key"

/-- The configuration-error classifier of FallbackRunnable.invoke. -/
def isConfigError (m : String) : Bool :=
  strContains m "cannot be set to" || strContains m "invalid_request_error" ||
  strContains m "Invalid parameter"

/-- The message of the terminal authentication error. -/
def authFailureMessage (provider errMsg : String) : String :=
  "Authentication failed for " ++ provider ++
  ". Please verify your API key is correct in Settings. Error: " ++ errMsg

/-- The shared circuit-breaker store, keyed by model key; an absent key is
the default CLOSED state. -/
def BreakerStore := String → CircuitBreakerState

/-- Write one key of the store. -/
def setStore (st : BreakerStore) (key : String) (v : CircuitBreakerState) :
    BreakerStore :=
  fun k => if k = key then v else st k

/-- The store in which no key has ever been touched. -/
def defaultBreakerStore : BreakerStore := fun _ => defaultCircuitState

/-- The model key of a candidate: provider colon modelName. -/
def modelKeyOf (c : ModelLoadConfig) : String :=
  c.provider ++ ":" ++ c.modelName

/-- What invoke produces: the result, the number of provider attempts made,
and the final breaker store. -/
structure InvokeTrace where
  result : InvokeResult
  attempts : Nat
  store : BreakerStore

/-- The candidate loop of FallbackRunnable.invoke. -/
def invokeLoop (mcfg : ModelManagerConfig) (now : Int)
    (behavior : Nat → AttemptOutcome) :
    List ModelLoadConfig → BreakerStore → Nat → Option String → InvokeTrace
  | [], store, attempts, lastErr =>
    ⟨.exhausted lastErr, attempts, store⟩
  | c :: rest, store, attempts, lastErr =>
    if (isCircuitClosed mcfg now (store (modelKeyOf c))).1 then
      match behavior attempts with
      | .success m =>
        ⟨.ok m, attempts + 1,
          setStore store (modelKeyOf c)
            (recordSuccess (isCircuitClosed mcfg now (store (modelKeyOf c))).2)⟩
      | .failure e =>
        if isAuthError e then
          ⟨.authError (authFailureMessage c.provider e), attempts + 1,
            setStore store (modelKeyOf c)
              (isCircuitClosed mcfg now (store (modelKeyOf c))).2⟩
        else if !isConfigError e && !rest.isEmpty then
          invokeLoop mcfg now behavior rest
            (setStore store (modelKeyOf c)
              (recordFailure mcfg now
                (isCircuitClosed mcfg now (store (modelKeyOf c))).2))
            (attempts + 1) (some e)
        else
          ⟨.thrown e, attempts + 1,
            setStore store (modelKeyOf c)
              (isCircuitClosed mcfg now (store (modelKeyOf c))).2⟩
    else
      invokeLoop mcfg now behavior rest store attempts lastErr

/-- FallbackRunnable.invoke, started with zero attempts and no last error. -/
def invoke (mcfg : ModelManagerConfig) (now : Int)
    (behavior : Nat → AttemptOutcome) (cands : List ModelLoadConfig)
    (store : BreakerStore) : InvokeTrace :=
  invokeLoop mcfg now behavior cands store 0 none

/-- Store lookup after a write at the same key. -/
theorem setStore_self (st : BreakerStore) (k : String) (v : CircuitBreakerState) :
    setStore st k v k = v := by
  simp [setStore]

/-- One loop step: an available candidate whose attempt fails with a
recoverable (neither auth nor config) error, with candidates remaining,
records a breaker failure for its model key and continues with the rest. -/
theorem invokeLoop_transient_step (mcfg : ModelManagerConfig) (now : Int)
    (behavior : Nat → AttemptOutcome) (c : ModelLoadConfig)
    (rest : List ModelLoadConfig) (store : BreakerStore) (n : Nat)
    (lastErr : Option String) (e : String)
    (hclosed : (isCircuitClosed mcfg now (store (modelKeyOf c))).1 = true)
    (hfail : behavior n = .failure e)
    (hauth : isAuthError e = false) (hconf : isConfigError e = false)
    (hrest : rest ≠ []) :
    invokeLoop mcfg now behavior (c :: rest) store n lastErr
      = invokeLoop mcfg now behavior rest
          (setStore store (modelKeyOf c)
            (recordFailure mcfg now
              (isCircuitClosed mcfg now (store (modelKeyOf c))).2))
          (n + 1) (some e) := by
  cases rest with
  | nil => exact absurd rfl hrest
  | cons r rs =>
    simp only [invokeLoop, hclosed, if_true, hfail, hauth, hconf,
      List.isEmpty_cons, Bool.not_false, Bool.and_self, Bool.false_eq_true,
      if_false]

/-- One loop step: an unavailable candidate is skipped without an attempt
and without touching the store. -/
theorem invokeLoop_skip_step (mcfg : ModelManagerConfig) (now : Int)
    (behavior : Nat → AttemptOutcome) (c : ModelLoadConfig)
    (rest : List ModelLoadConfig) (store : BreakerStore) (n : Nat)
    (lastErr : Option String)
    (hopen : (isCircuitClosed mcfg now (store (modelKeyOf c))).1 = false) :
    invokeLoop mcfg now behavior (c :: rest) store n lastErr
      = invokeLoop mcfg now behavior rest store n lastErr := by
  simp only [invokeLoop, hopen, Bool.false_eq_true, if_false]

/-- Helper for C2: whenever the attempt made against the first available
candidate throws an authentication-classified error, the loop ends there
with the terminal authentication error and exactly one further attempt. -/
theorem invokeLoop_auth_aborts (mcfg : ModelManagerConfig) (now : Int)
    (behavior : Nat → AttemptOutcome) (e : String)
    (cands : List ModelLoadConfig) (store : BreakerStore) (n : Nat)
    (lastErr : Option String)
    (hfail : behavior n = .failure e) (hauth : isAuthError e = true)
    (havail : ∃ c ∈ cands,
      (isCircuitClosed mcfg now (store (modelKeyOf c))).1 = true) :
    ∃ c ∈ cands,
      (invokeLoop mcfg now behavior cands store n lastErr).result
        = .authError (authFailureMessage c.provider e) ∧
      (invokeLoop mcfg now behavior cands store n lastErr).attempts = n + 1 := by
  induction cands with
  | nil => simp at havail
  | cons c rest ih =>
    by_cases hc : (isCircuitClosed mcfg now (store (modelKeyOf c))).1 = true
    · refine ⟨c, List.mem_cons_self c rest, ?_, ?_⟩
      · simp [invokeLoop, hc, hfail, hauth]
      · simp [invokeLoop, hc, hfail, hauth]
    · have hco : (isCircuitClosed mcfg now (store (modelKeyOf c))).1 = false :=
        Bool.eq_false_iff.mpr hc
      rw [invokeLoop_skip_step mcfg now behavior c rest store n lastErr hco]
      have havail' : ∃ c' ∈ rest,
          (isCircuitClosed mcfg now (store (modelKeyOf c'))).1 = true := by
        rcases havail with ⟨c', hc', hcl⟩
        rcases List.mem_cons.mp hc' with h | h
        · exact absurd (h ▸ hcl) hc
        · exact ⟨c', h, hcl⟩
      rcases ih havail' with ⟨c', hc', h⟩
      exact ⟨c', List.mem_cons_of_mem c hc', h⟩

/-- One loop step: an available candidate whose attempt succeeds returns the
message immediately and records a breaker success. -/
theorem invokeLoop_success_step (mcfg : ModelManagerConfig) (now : Int)
    (behavior : Nat → AttemptOutcome) (c : ModelLoadConfig)
    (rest : List ModelLoadConfig) (store : BreakerStore) (n : Nat)
    (lastErr : Option String) (m : String)
    (hclosed : (isCircuitClosed mcfg now (store (modelKeyOf c))).1 = true)
    (hsucc : behavior n = .success m) :
    invokeLoop mcfg now behavior (c :: rest) store n lastErr
      = ⟨.ok m, n + 1,
          setStore store (modelKeyOf c)
            (recordSuccess (isCircuitClosed mcfg now (store (modelKeyOf c))).2)⟩ := by
  simp only [invokeLoop, hclosed, if_true, hsucc]

/-! ## Claims C1 and C2 -/

/-- Claim C1: a transiently failing available candidate records a breaker
failure for its model key and falls through to the next remaining
candidate; and under the default configuration, with the candidate list the
resolver produced and a fresh breaker store, a transient failure of the
primary is followed by exactly one further attempt whose outcome decides
the invocation: a second success returns that message after exactly two
attempts, and a second transient failure ends the invocation with the
exhaustion error carrying that second (last) error message, again after
exactly two attempts, the remaining candidate being skipped by the
now-open breaker. -/
theorem transient_failure_falls_through :
    (∀ (mcfg : ModelManagerConfig) (now : Int) (behavior : Nat → AttemptOutcome)
        (c : ModelLoadConfig) (rest : List ModelLoadConfig) (store : BreakerStore)
        (n : Nat) (lastErr : Option String) (e : String),
      (isCircuitClosed mcfg now (store (modelKeyOf c))).1 = true →
      behavior n = .failure e →
      isAuthError e = false → isConfigError e = false → rest ≠ [] →
      invokeLoop mcfg now behavior (c :: rest) store n lastErr
        = invokeLoop mcfg now behavior rest
            (setStore store (modelKeyOf c)
              (recordFailure mcfg now
                (isCircuitClosed mcfg now (store (modelKeyOf c))).2))
            (n + 1) (some e)) ∧
    (∀ (env : EnvTable) (defaults : LLMTask → String) (gcfg : GraphConfigurable)
        (task : LLMTask) (now : Int) (behavior : Nat → AttemptOutcome) (e1 : String),
      behavior 0 = .failure e1 →
      isAuthError e1 = false → isConfigError e1 = false →
      (∀ m, behavior 1 = .success m →
        (invoke DEFAULT_MODEL_MANAGER_CONFIG now behavior
            (getModelConfigs env defaults gcfg task) defaultBreakerStore).result
          = .ok m ∧
        (invoke DEFAULT_MODEL_MANAGER_CONFIG now behavior
            (getModelConfigs env defaults gcfg task) defaultBreakerStore).attempts
          = 2) ∧
      (∀ e2, behavior 1 = .failure e2 →
        isAuthError e2 = false → isConfigError e2 = false →
        (invoke DEFAULT_MODEL_MANAGER_CONFIG now behavior
            (getModelConfigs env defaults gcfg task) defaultBreakerStore).result
          = .exhausted (some e2) ∧
        (invoke DEFAULT_MODEL_MANAGER_CONFIG now behavior
            (getModelConfigs env defaults gcfg task) defaultBreakerStore).attempts
          = 2)) := by
  constructor
  · intro mcfg now behavior c rest store n lastErr e hclosed hfail hauth hconf hrest
    exact invokeLoop_transient_step mcfg now behavior c rest store n lastErr e
      hclosed hfail hauth hconf hrest
  · intro env defaults gcfg task now behavior e1 hb0 ha1 hc1
    set b := getBaseConfigForTask env defaults gcfg task with hbdef
    have hcands : getModelConfigs env defaults gcfg task = b :: [b, b] := rfl
    have hcl1 : (isCircuitClosed DEFAULT_MODEL_MANAGER_CONFIG now
        (defaultBreakerStore (modelKeyOf b))).1 = true := rfl
    have hcl2 : (isCircuitClosed DEFAULT_MODEL_MANAGER_CONFIG now
        ((setStore defaultBreakerStore (modelKeyOf b)
            (recordFailure DEFAULT_MODEL_MANAGER_CONFIG now
              (isCircuitClosed DEFAULT_MODEL_MANAGER_CONFIG now
                (defaultBreakerStore (modelKeyOf b))).2))
          (modelKeyOf b))).1 = true := by
      rw [setStore_self]
      rfl
    constructor
    · intro m hb1
      unfold invoke
      rw [hcands]
      rw [invokeLoop_transient_step _ _ _ _ _ _ _ _ _ hcl1 hb0 ha1 hc1 (by simp)]
      rw [invokeLoop_success_step _ _ _ _ _ _ _ _ _ hcl2 hb1]
      exact ⟨rfl, rfl⟩
    · intro e2 hb1 ha2 hc2
      have hop3 : (isCircuitClosed DEFAULT_MODEL_MANAGER_CONFIG now
          ((setStore
              (setStore defaultBreakerStore (modelKeyOf b)
                (recordFailure DEFAULT_MODEL_MANAGER_CONFIG now
                  (isCircuitClosed DEFAULT_MODEL_MANAGER_CONFIG now
                    (defaultBreakerStore (modelKeyOf b))).2))
              (modelKeyOf b)
              (recordFailure DEFAULT_MODEL_MANAGER_CONFIG now
                (isCircuitClosed DEFAULT_MODEL_MANAGER_CONFIG now
                  ((setStore defaultBreakerStore (modelKeyOf b)
                      (recordFailure DEFAULT_MODEL_MANAGER_CONFIG now
                        (isCircuitClosed DEFAULT_MODEL_MANAGER_CONFIG now
                          (defaultBreakerStore (modelKeyOf b))).2))
                    (modelKeyOf b))).2))
            (modelKeyOf b))).1 = false := by
        rw [setStore_self, setStore_self]
        norm_num [isCircuitClosed, recordFailure, defaultBreakerStore,
          defaultCircuitState, DEFAULT_MODEL_MANAGER_CONFIG]
        simp
      unfold invoke
      rw [hcands]
      rw [invokeLoop_transient_step _ _ _ _ _ _ _ _ _ hcl1 hb0 ha1 hc1 (by simp)]
      rw [invokeLoop_transient_step _ _ _ _ _ _ _ _ _ hcl2 hb1 ha2 hc2 (by simp)]
      rw [invokeLoop_skip_step _ _ _ _ _ _ _ _ hop3]
      exact ⟨rfl, rfl⟩

/-- Witness for C1: with a fresh store and the default resolver output, a
first attempt failing with a transient Overloaded error followed by a
successful second attempt yields that success after exactly two attempts. -/
theorem transient_failure_falls_through_witness :
    (invoke DEFAULT_MODEL_MANAGER_CONFIG 0
        (fun n => if n = 0 then .failure "Overloaded" else .success "done")
        (getModelConfigs (fun _ => none)
          (fun _ => "anthropic:claude-sonnet-4-5-20250929")
          { modelProvider := none, taskModelName := fun _ => none,
            taskTemperature := fun _ => none, maxTokens := none } .PLANNER)
        defaultBreakerStore).result = .ok "done" ∧
    (invoke DEFAULT_MODEL_MANAGER_CONFIG 0
        (fun n => if n = 0 then .failure "Overloaded" else .success "done")
        (getModelConfigs (fun _ => none)
          (fun _ => "anthropic:claude-sonnet-4-5-20250929")
          { modelProvider := none, taskModelName := fun _ => none,
            taskTemperature := fun _ => none, maxTokens := none } .PLANNER)
        defaultBreakerStore).attempts = 2 :=
  (transient_failure_falls_through.2 (fun _ => none)
    (fun _ => "anthropic:claude-sonnet-4-5-20250929")
    { modelProvider := none, taskModelName := fun _ => none,
      taskTemperature := fun _ => none, maxTokens := none } .PLANNER 0
    (fun n => if n = 0 then .failure "Overloaded" else .success "done")
    "Overloaded" rfl (by decide) (by decide)).1 "done" rfl

/-- Claim C2: when the first attempted candidate (the first whose breaker is
available) fails with an authentication-classified error, the loop makes
exactly one provider attempt in total and aborts with the terminal
authentication error, however many candidates remain. -/
theorem auth_failure_aborts_whole_loop (mcfg : ModelManagerConfig) (now : Int)
    (behavior : Nat → AttemptOutcome) (cands : List ModelLoadConfig)
    (store : BreakerStore) (e : String)
    (hfail : behavior 0 = .failure e) (hauth : isAuthError e = true)
    (havail : ∃ c ∈ cands,
      (isCircuitClosed mcfg now (store (modelKeyOf c))).1 = true) :
    ∃ c ∈ cands,
      (invoke mcfg now behavior cands store).result
        = .authError (authFailureMessage c.provider e) ∧
      (invoke mcfg now behavior cands store).attempts = 1 :=
  invokeLoop_auth_aborts mcfg now behavior e cands store 0 none hfail hauth havail

/-- A concrete candidate used by witnesses. -/
def sampleCandidate : ModelLoadConfig :=
  { provider := "openai", modelName := "gpt-5-codex", temperature := some 1,
    maxTokens := none, maxCompletionTokens := some 10000,
    thinkingModel := some false, thinkingBudgetTokens := some 5000 }

/-- Witness for C2: a 401 failure on the first of three fresh candidates
ends after exactly one attempt with the terminal authentication error. -/
theorem auth_failure_aborts_whole_loop_witness :
    ∃ c ∈ [sampleCandidate, sampleCandidate, sampleCandidate],
      (invoke DEFAULT_MODEL_MANAGER_CONFIG 0 (fun _ => .failure "401 Unauthorized")
          [sampleCandidate, sampleCandidate, sampleCandidate]
          defaultBreakerStore).result
        = .authError (authFailureMessage c.provider "401 Unauthorized") ∧
      (invoke DEFAULT_MODEL_MANAGER_CONFIG 0 (fun _ => .failure "401 Unauthorized")
          [sampleCandidate, sampleCandidate, sampleCandidate]
          defaultBreakerStore).attempts = 1 :=
  auth_failure_aborts_whole_loop DEFAULT_MODEL_MANAGER_CONFIG 0
    (fun _ => .failure "401 Unauthorized")
    [sampleCandidate, sampleCandidate, sampleCandidate] defaultBreakerStore
    "401 Unauthorized" rfl (by decide)
    ⟨sampleCandidate, by simp, rfl⟩

/-! ## History sanitization (sanitizeHistory of the fallback runner): every
assistant entry carrying pending tool invocations that is not immediately
followed by a tool-result entry, including when it is the last entry, gets
one synthetic tool-result entry per pending invocation injected right after
it, each carrying the invocation id and an execution-interrupted notice. -/

/-- A pending tool invocation attached to an assistant entry. -/
structure ToolCall where
  id : String
  name : String
deriving DecidableEq, Repr

/-- A message of the conversation history, tagged by role. -/
inductive ChatMsg
  | ai (content : String) (toolCalls : List ToolCall)
  | tool (toolCallId : String) (content : String) (name : String)
  | human (content : String)
  | system (content : String)
deriving DecidableEq, Repr

/-- isToolMessageLike of the fallback runner. -/
def isToolMessageLike : ChatMsg → Bool
  | .tool _ _ _ => true
  | _ => false

/-- The pending tool invocations of an entry (isAIMessageLike together with
the tool_calls array: only assistant entries carry tool calls). -/
def pendingToolCalls : ChatMsg → List ToolCall
  | .ai _ tcs => tcs
  | _ => []

/-- The content of the injected placeholder tool results. -/
def interruptedNotice : String :=
  "Error: Tool execution interrupted or result missing. Please retry."

/-- The placeholder tool results injected for a list of pending
invocations, one per invocation, carrying its id and name. -/
def dummyToolResults (tcs : List ToolCall) : List ChatMsg :=
  tcs.map (fun tc => ChatMsg.tool tc.id interruptedNotice tc.name)

/-- One iteration of the sanitization loop: push the entry and, when it has
pending tool invocations and the next entry is missing or not a tool
result, push the placeholder results. -/
def sanChunk (m : ChatMsg) (next : Option ChatMsg) : List ChatMsg :=
  if (pendingToolCalls m).isEmpty then [m]
  else
    match next with
    | none => m :: dummyToolResults (pendingToolCalls m)
    | some nm =>
      if isToolMessageLike nm then [m]
      else m :: dummyToolResults (pendingToolCalls m)

/-- sanitizeHistory of the fallback runner. -/
def sanitizeHistory : List ChatMsg → List ChatMsg
  | [] => []
  | m :: rest => sanChunk m rest.head? ++ sanitizeHistory rest

/-- The sanitization of a proper prefix, where the lookahead at the end of
the prefix sees the continuation. -/
def preSan : List ChatMsg → List ChatMsg → List ChatMsg
  | [], _ => []
  | m :: rest, cont => sanChunk m ((rest ++ cont).head?) ++ preSan rest cont

/-- Sanitization splits at any point of the history. -/
theorem sanitizeHistory_append (h1 h2 : List ChatMsg) :
    sanitizeHistory (h1 ++ h2) = preSan h1 h2 ++ sanitizeHistory h2 := by
  induction h1 with
  | nil => simp [preSan]
  | cons m t ih => simp [sanitizeHistory, preSan, ih]

/-! ## Claim C6 -/

/-- Claim C6: for every history in which an assistant entry with pending
tool invocations is not immediately followed by a tool-result entry
(including when it ends the log), sanitization keeps everything else in
place and inserts, immediately after that assistant entry, exactly one
synthetic tool-result entry per pending invocation, each carrying the
invocation id and the execution-interrupted notice. -/
theorem dangling_tool_calls_repaired (h1 h2 : List ChatMsg) (content : String)
    (tcs : List ToolCall) (hne : tcs ≠ [])
    (hnext : ∀ nm, h2.head? = some nm → isToolMessageLike nm = false) :
    sanitizeHistory (h1 ++ ChatMsg.ai content tcs :: h2)
      = preSan h1 (ChatMsg.ai content tcs :: h2)
        ++ ChatMsg.ai content tcs :: (dummyToolResults tcs ++ sanitizeHistory h2) ∧
    (dummyToolResults tcs).length = tcs.length ∧
    dummyToolResults tcs
      = tcs.map (fun tc => ChatMsg.tool tc.id interruptedNotice tc.name) := by
  refine ⟨?_, by simp [dummyToolResults], rfl⟩
  rw [sanitizeHistory_append h1 (ChatMsg.ai content tcs :: h2)]
  have hchunk : sanChunk (ChatMsg.ai content tcs) h2.head?
      = ChatMsg.ai content tcs :: dummyToolResults tcs := by
    have hemp : (pendingToolCalls (ChatMsg.ai content tcs)).isEmpty = false := by
      simpa [pendingToolCalls, List.isEmpty_iff] using hne
    cases hh : h2.head? with
    | none =>
      simp [sanChunk, pendingToolCalls, hemp]
      exact fun h => by simp [h, dummyToolResults]
    | some nm =>
      simp [sanChunk, pendingToolCalls, hemp, hnext nm hh]
      exact fun h => by simp [h, dummyToolResults]
  simp [sanitizeHistory, hchunk]

/-- Witness for C6, the scenario of spec section 8: an assistant entry with
two pending invocations at the end of the log receives exactly its two
placeholder results. -/
theorem dangling_tool_calls_repaired_witness :
    sanitizeHistory
        ([] ++ ChatMsg.ai "x" [⟨"id1", "f"⟩, ⟨"id2", "g"⟩] :: [])
      = preSan [] (ChatMsg.ai "x" [⟨"id1", "f"⟩, ⟨"id2", "g"⟩] :: [])
        ++ ChatMsg.ai "x" [⟨"id1", "f"⟩, ⟨"id2", "g"⟩]
          :: (dummyToolResults [⟨"id1", "f"⟩, ⟨"id2", "g"⟩] ++ sanitizeHistory []) ∧
    (dummyToolResults [⟨"id1", "f"⟩, ⟨"id2", "g"⟩]).length
      = ([⟨"id1", "f"⟩, ⟨"id2", "g"⟩] : List ToolCall).length ∧
    dummyToolResults [⟨"id1", "f"⟩, ⟨"id2", "g"⟩]
      = ([⟨"id1", "f"⟩, ⟨"id2", "g"⟩] : List ToolCall).map
          (fun tc => ChatMsg.tool tc.id interruptedNotice tc.name) :=
  dangling_tool_calls_repaired [] [] "x" [⟨"id1", "f"⟩, ⟨"id2", "g"⟩]
    (by decide) (fun nm h => Option.noConfusion h)

/-! ## History token monitor and compactor (claim C7) -/

/-- Modelled from the spec: the conversation log of section 3, an ordered
entry list with a running token count and the last-compaction marker.  The
implementing files (apps/open-swe/src/utils/tokens.ts and the
summarize-history graph node) are not among the provided sources. -/
structure ConversationLog where
  entries : List ChatMsg
  tokenCount : Nat
  lastCompactionIndex : Nat

/-- Modelled from the spec: the default token ceiling MAX_INTERNAL_TOKENS
(80,000) quoted from utils/tokens.ts. -/
def MAX_INTERNAL_TOKENS : Nat := 80000

/-- Modelled from the spec: the most recent K = 20 entries are never
eligible for compaction. -/
def RECENT_MESSAGES_KEPT : Nat := 20

/-- Modelled from the spec: the assistant-role notice that history was
condensed for space. -/
def compactionNotice : ChatMsg :=
  .ai "Conversation history was condensed to stay within the token budget." []

/-- Modelled from the spec: the tool-role entry carrying the produced
summary text. -/
def compactionSummaryEntry (summary : String) : ChatMsg :=
  .tool "compaction" summary "summarize-history"

/-- Modelled from the spec: monitorAndCompact of sections 4.4 and 6.  Below
the threshold it is a no-op without a model call; otherwise the span of
entries strictly after the last compaction marker and strictly before the
last 20 entries, when non-empty, is replaced by exactly two synthetic
entries (the notice and the summary produced by the summarizer call), the
marker advances past the replacement, and the Boolean reports whether the
summarizer model was called. -/
def monitorAndCompact (threshold : Nat) (summary : String)
    (log : ConversationLog) : ConversationLog × Bool :=
  if log.tokenCount < threshold then (log, false)
  else
    let cutoff := log.entries.length - RECENT_MESSAGES_KEPT
    if cutoff ≤ log.lastCompactionIndex then (log, false)
    else
      ({ entries :=
            log.entries.take log.lastCompactionIndex
              ++ compactionNotice :: compactionSummaryEntry summary
                :: log.entries.drop cutoff,
         tokenCount := log.tokenCount,
         lastCompactionIndex := log.lastCompactionIndex + 2 }, true)

/-! ## Claim C7 -/

/-- Claim C7: monitorAndCompact is a no-op making no model call below the
threshold; at or above the threshold with a non-empty eligible span it
calls the model once, replaces the span with exactly the two synthetic
entries while the last 20 entries stay byte-identical, and in the section 8
scenario (120 entries, 80001 tokens, no prior marker) the result has 22
entries with entries 101 to 120 unchanged. -/
theorem monitorAndCompact_contract (log : ConversationLog) (summary : String) :
    (log.tokenCount < MAX_INTERNAL_TOKENS →
      monitorAndCompact MAX_INTERNAL_TOKENS summary log = (log, false)) ∧
    (MAX_INTERNAL_TOKENS ≤ log.tokenCount →
     log.lastCompactionIndex < log.entries.length - RECENT_MESSAGES_KEPT →
      ((monitorAndCompact MAX_INTERNAL_TOKENS summary log).2 = true ∧
       (monitorAndCompact MAX_INTERNAL_TOKENS summary log).1.entries
        = log.entries.take log.lastCompactionIndex
            ++ compactionNotice :: compactionSummaryEntry summary
              :: log.entries.drop (log.entries.length - RECENT_MESSAGES_KEPT) ∧
       (monitorAndCompact MAX_INTERNAL_TOKENS summary log).1.entries.length
        = log.lastCompactionIndex + 2 + RECENT_MESSAGES_KEPT ∧
       (monitorAndCompact MAX_INTERNAL_TOKENS summary log).1.entries.drop
          (log.lastCompactionIndex + 2)
        = log.entries.drop (log.entries.length - RECENT_MESSAGES_KEPT))) ∧
    (log.entries.length = 120 → log.tokenCount = 80001 →
     log.lastCompactionIndex = 0 →
      ((monitorAndCompact MAX_INTERNAL_TOKENS summary log).1.entries.length = 22 ∧
       (monitorAndCompact MAX_INTERNAL_TOKENS summary log).1.entries.drop 2
        = log.entries.drop 100)) := by
  have hmain : MAX_INTERNAL_TOKENS ≤ log.tokenCount →
      log.lastCompactionIndex < log.entries.length - RECENT_MESSAGES_KEPT →
      (monitorAndCompact MAX_INTERNAL_TOKENS summary log).2 = true ∧
      (monitorAndCompact MAX_INTERNAL_TOKENS summary log).1.entries
        = log.entries.take log.lastCompactionIndex
            ++ compactionNotice :: compactionSummaryEntry summary
              :: log.entries.drop (log.entries.length - RECENT_MESSAGES_KEPT) ∧
      (monitorAndCompact MAX_INTERNAL_TOKENS summary log).1.entries.length
        = log.lastCompactionIndex + 2 + RECENT_MESSAGES_KEPT ∧
      (monitorAndCompact MAX_INTERNAL_TOKENS summary log).1.entries.drop
          (log.lastCompactionIndex + 2)
        = log.entries.drop (log.entries.length - RECENT_MESSAGES_KEPT) := by
    intro hge hspan
    have hnotlt : ¬ log.tokenCount < MAX_INTERNAL_TOKENS := not_lt.mpr hge
    have hnotle : ¬ log.entries.length - RECENT_MESSAGES_KEPT ≤
        log.lastCompactionIndex := not_le.mpr hspan
    have hres : monitorAndCompact MAX_INTERNAL_TOKENS summary log
        = ({ entries :=
                log.entries.take log.lastCompactionIndex
                  ++ compactionNotice :: compactionSummaryEntry summary
                    :: log.entries.drop (log.entries.length - RECENT_MESSAGES_KEPT),
             tokenCount := log.tokenCount,
             lastCompactionIndex := log.lastCompactionIndex + 2 }, true) := by
      unfold monitorAndCompact
      simp [hnotlt, hnotle]
    have hmarker_le : log.lastCompactionIndex ≤ log.entries.length := by
      have := Nat.sub_le log.entries.length RECENT_MESSAGES_KEPT
      omega
    have hkept : (log.entries.take log.lastCompactionIndex).length
        = log.lastCompactionIndex := by
      simp [List.length_take, Nat.min_eq_left hmarker_le]
    have hkeep_le : RECENT_MESSAGES_KEPT ≤ log.entries.length := by
      by_contra hlt
      push_neg at hlt
      have : log.entries.length - RECENT_MESSAGES_KEPT = 0 := by omega
      omega
    have htail : (log.entries.drop (log.entries.length - RECENT_MESSAGES_KEPT)).length
        = RECENT_MESSAGES_KEPT := by
      simp [List.length_drop]
      omega
    refine ⟨by rw [hres], by rw [hres], ?_, ?_⟩
    · rw [hres]
      simp only [List.length_append, List.length_cons, hkept, htail]
      omega
    · rw [hres]
      have hsplit :
          log.entries.take log.lastCompactionIndex
            ++ compactionNotice :: compactionSummaryEntry summary
              :: log.entries.drop (log.entries.length - RECENT_MESSAGES_KEPT)
          = (log.entries.take log.lastCompactionIndex
              ++ [compactionNotice, compactionSummaryEntry summary])
            ++ log.entries.drop (log.entries.length - RECENT_MESSAGES_KEPT) := by
        simp
      rw [hsplit]
      apply List.drop_left'
      simp [hkept]
  refine ⟨?_, hmain, ?_⟩
  · intro hlt
    unfold monitorAndCompact
    simp [hlt]
  · intro hlen htok hmark
    have hge : MAX_INTERNAL_TOKENS ≤ log.tokenCount := by
      rw [htok]; norm_num [MAX_INTERNAL_TOKENS]
    have hspan : log.lastCompactionIndex <
        log.entries.length - RECENT_MESSAGES_KEPT := by
      rw [hmark, hlen]; norm_num [RECENT_MESSAGES_KEPT]
    obtain ⟨-, -, hlength, hdrop⟩ := hmain hge hspan
    constructor
    · rw [hlength, hmark]
      norm_num [RECENT_MESSAGES_KEPT]
    · rw [hmark, hlen] at hdrop
      simpa [RECENT_MESSAGES_KEPT] using hdrop

/-- Witness for C7: a below-budget log is untouched with no model call, and
the section 8 scenario log of 120 entries at 80001 tokens compacts to 22
entries with the final 20 unchanged. -/
theorem monitorAndCompact_contract_witness :
    monitorAndCompact MAX_INTERNAL_TOKENS "S"
        { entries := List.replicate 30 (ChatMsg.human "m"), tokenCount := 500,
          lastCompactionIndex := 0 }
      = ({ entries := List.replicate 30 (ChatMsg.human "m"), tokenCount := 500,
           lastCompactionIndex := 0 }, false) ∧
    (monitorAndCompact MAX_INTERNAL_TOKENS "S"
        { entries := List.replicate 120 (ChatMsg.human "m"), tokenCount := 80001,
          lastCompactionIndex := 0 }).1.entries.length = 22 ∧
    (monitorAndCompact MAX_INTERNAL_TOKENS "S"
        { entries := List.replicate 120 (ChatMsg.human "m"), tokenCount := 80001,
          lastCompactionIndex := 0 }).1.entries.drop 2
      = (List.replicate 120 (ChatMsg.human "m")).drop 100 := by
  refine ⟨?_, ?_, ?_⟩
  · exact (monitorAndCompact_contract _ "S").1 (by norm_num [MAX_INTERNAL_TOKENS])
  · exact ((monitorAndCompact_contract _ "S").2.2 (by simp) rfl rfl).1
  · exact ((monitorAndCompact_contract _ "S").2.2 (by simp) rfl rfl).2

end OpenSWE
